import Mathlib

/-!
Verification of the mini-midi MIDI codec (src/src/lib.rs).

Shallow embedding: bytes are `Nat` (all arithmetic in the source stays
within `u8` range, so `Nat` addition and truncated subtraction coincide
with the `u8` operations used), byte slices are `List Nat`, and every
`panic!` site of the source becomes an explicit `DecodeResult.panic`
outcome carrying the panic site.
-/

/-- A MIDI channel, mirroring `enum Channel` in src/src/lib.rs. -/
inductive Channel
  | Channel1
  | Channel2
  | Channel3
  | Channel4
  | Channel5
  | Channel6
  | Channel7
  | Channel8
  | Channel9
  | Channel10
  | Channel11
  | Channel12
  | Channel13
  | Channel14
  | Channel15
  | Channel16
deriving DecidableEq, Repr

/-- `impl From<u8> for Channel`: indices 0..14 map to Channel1..Channel15,
and the wildcard arm maps everything else (15 and above) to Channel16. -/
def Channel.fromIndex : Nat → Channel
  | 0 => .Channel1
  | 1 => .Channel2
  | 2 => .Channel3
  | 3 => .Channel4
  | 4 => .Channel5
  | 5 => .Channel6
  | 6 => .Channel7
  | 7 => .Channel8
  | 8 => .Channel9
  | 9 => .Channel10
  | 10 => .Channel11
  | 11 => .Channel12
  | 12 => .Channel13
  | 13 => .Channel14
  | 14 => .Channel15
  | _ => .Channel16

/-- `impl Into<u8> for &Channel`: ChannelN maps to N - 1. -/
def Channel.toIndex : Channel → Nat
  | .Channel1 => 0
  | .Channel2 => 1
  | .Channel3 => 2
  | .Channel4 => 3
  | .Channel5 => 4
  | .Channel6 => 5
  | .Channel7 => 6
  | .Channel8 => 7
  | .Channel9 => 8
  | .Channel10 => 9
  | .Channel11 => 10
  | .Channel12 => 11
  | .Channel13 => 12
  | .Channel14 => 13
  | .Channel15 => 14
  | .Channel16 => 15

/-- A MIDI message, mirroring `enum Message<'a>`; the borrowed SysEx
payload slice becomes an owned `List Nat`. -/
inductive Message
  | NoteOff (channel : Channel) (note velocity : Nat)
  | NoteOn (channel : Channel) (note velocity : Nat)
  | PolyphonicAftertouch (channel : Channel) (note pressure : Nat)
  | ControlOrModeChange (channel : Channel) (byte2 byte3 : Nat)
  | ProgramChange (channel : Channel) (program : Nat)
  | Aftertouch (channel : Channel) (pressure : Nat)
  | PitchBendChange (channel : Channel) (lsb msb : Nat)
  | SystemExclusive (data : List Nat)
  | SongPositionPointer (lsb msb : Nat)
  | SongSelect (song : Nat)
  | TuneRequest
  | TimingClock
  | Start
  | Continue
  | Stop
  | ActiveSensing
  | SystemReset
deriving DecidableEq, Repr

/-- The panic sites of `From<&[u8]> for Message`, one constructor per
`panic!` in the source (the SysEx one is the implicit slice-bound panic
of `&value[1..value.len() - 1]`). -/
inductive PanicKind
  | emptyInput
  | noSecondByte
  | noThirdByte
  | sliceOutOfRange
  | invalidMessage
deriving DecidableEq, Repr

/-- Outcome of decoding: a message, or a process abort at a panic site. -/
inductive DecodeResult
  | ok (m : Message)
  | panic (k : PanicKind)
deriving DecidableEq, Repr

/-- The `get_second_byte` closure: `value[1]` if the slice has at least
two bytes, otherwise the "No second byte present!" panic. -/
def getSecondByte (value : List Nat) : Except PanicKind Nat :=
  if 2 ≤ value.length then .ok (value.getD 1 0) else .error .noSecondByte

/-- The `get_third_byte` closure: `value[2]` if the slice has at least
three bytes, otherwise the "No third byte present!" panic. -/
def getThirdByte (value : List Nat) : Except PanicKind Nat :=
  if 3 ≤ value.length then .ok (value.getD 2 0) else .error .noThirdByte

/-- `impl From<&'a [u8]> for Message`: dispatch on the first byte.
Faithful to the source, including the `first_byte - 145` arithmetic in
the PolyphonicAftertouch arm, the raw `first_byte` channel in the
PitchBendChange arm, and the unchecked slice `&value[1..value.len()-1]`
in the SystemExclusive arm (which panics when the slice start 1 exceeds
the end `value.len() - 1`). -/
def decode (value : List Nat) : DecodeResult :=
  match value with
  | [] => .panic .emptyInput
  | firstByte :: _ =>
    let withTwoData (f : Nat → Nat → Message) : DecodeResult :=
      match getSecondByte value with
      | .error k => .panic k
      | .ok b2 =>
        match getThirdByte value with
        | .error k => .panic k
        | .ok b3 => .ok (f b2 b3)
    let withOneData (f : Nat → Message) : DecodeResult :=
      match getSecondByte value with
      | .error k => .panic k
      | .ok b2 => .ok (f b2)
    if 128 ≤ firstByte ∧ firstByte ≤ 143 then
      withTwoData fun b2 b3 => .NoteOff (Channel.fromIndex (firstByte - 128)) b2 b3
    else if 144 ≤ firstByte ∧ firstByte ≤ 159 then
      withTwoData fun b2 b3 => .NoteOn (Channel.fromIndex (firstByte - 144)) b2 b3
    else if 160 ≤ firstByte ∧ firstByte ≤ 175 then
      withTwoData fun b2 b3 => .PolyphonicAftertouch (Channel.fromIndex (firstByte - 145)) b2 b3
    else if 176 ≤ firstByte ∧ firstByte ≤ 191 then
      withTwoData fun b2 b3 => .ControlOrModeChange (Channel.fromIndex (firstByte - 176)) b2 b3
    else if 192 ≤ firstByte ∧ firstByte ≤ 207 then
      withOneData fun b2 => .ProgramChange (Channel.fromIndex (firstByte - 192)) b2
    else if 208 ≤ firstByte ∧ firstByte ≤ 223 then
      withOneData fun b2 => .Aftertouch (Channel.fromIndex (firstByte - 208)) b2
    else if 224 ≤ firstByte ∧ firstByte ≤ 239 then
      withTwoData fun b2 b3 => .PitchBendChange (Channel.fromIndex firstByte) b2 b3
    else if firstByte = 240 then
      if 1 ≤ value.length - 1 then
        .ok (.SystemExclusive ((value.drop 1).take (value.length - 1 - 1)))
      else .panic .sliceOutOfRange
    else if firstByte = 242 then
      withTwoData fun b2 b3 => .SongPositionPointer b2 b3
    else if firstByte = 243 then
      withOneData fun b2 => .SongSelect b2
    else if firstByte = 246 then .ok .TuneRequest
    else if firstByte = 248 then .ok .TimingClock
    else if firstByte = 250 then .ok .Start
    else if firstByte = 251 then .ok .Continue
    else if firstByte = 252 then .ok .Stop
    else if firstByte = 254 then .ok .ActiveSensing
    else if firstByte = 255 then .ok .SystemReset
    else .panic .invalidMessage

/-- `impl Into<Vec<u8>> for Message`: serialize a message to bytes.
All status-byte additions stay below 256, so `Nat` addition matches the
source's `u8` addition. -/
def encode : Message → List Nat
  | .NoteOff channel note velocity => [128 + channel.toIndex, note, velocity]
  | .NoteOn channel note velocity => [144 + channel.toIndex, note, velocity]
  | .PolyphonicAftertouch channel note pressure => [160 + channel.toIndex, note, pressure]
  | .ControlOrModeChange channel byte2 byte3 => [176 + channel.toIndex, byte2, byte3]
  | .ProgramChange channel program => [192 + channel.toIndex, program]
  | .Aftertouch channel pressure => [208 + channel.toIndex, pressure]
  | .PitchBendChange channel lsb msb => [224 + channel.toIndex, lsb, msb]
  | .SystemExclusive data => 240 :: (data ++ [247])
  | .SongPositionPointer lsb msb => [242, lsb, msb]
  | .SongSelect song => [243, song]
  | .TuneRequest => [246]
  | .TimingClock => [248]
  | .Start => [250]
  | .Continue => [251]
  | .Stop => [252]
  | .ActiveSensing => [254]
  | .SystemReset => [255]

/-- C1: the decode-encode round trip fails on the code: encoding
`PolyphonicAftertouch(Channel1, 60, 100)` yields `[0xA0, 60, 100]`, and
decoding that back yields the channel `Channel16` (from the source's
`first_byte - 145` arithmetic), not `Channel1`; likewise
`PitchBendChange(Channel1, 1, 2)` comes back with `Channel16` (from the
source's raw `first_byte` channel). -/
theorem c1_roundtrip_fails_on_aftertouch_and_pitchbend :
    decode (encode (.PolyphonicAftertouch .Channel1 60 100)) =
      .ok (.PolyphonicAftertouch .Channel16 60 100) ∧
    decode (encode (.PitchBendChange .Channel1 1 2)) =
      .ok (.PitchBendChange .Channel16 1 2) ∧
    decode (encode (.PolyphonicAftertouch .Channel1 60 100)) ≠
      .ok (.PolyphonicAftertouch .Channel1 60 100) := by decide

/-- C2: decoding status byte 0xA0 (= 160) with two data bytes gives a
PolyphonicAftertouch on Channel16 (index 15), not on the channel with
index 0xA0 − 0xA0 = 0 as claimed: the source computes the channel as
`first_byte - 145`. -/
theorem c2_aftertouch_channel_off_by_base :
    decode [160, 1, 2] = .ok (.PolyphonicAftertouch .Channel16 1 2) ∧
    Channel.toIndex .Channel16 ≠ 160 - 160 := by decide

/-- C3: decoding status byte 0xE0 (= 224) with two data bytes gives a
PitchBendChange on Channel16 (index 15), not on the channel with index
0xE0 − 0xE0 = 0 as claimed: the source passes the raw status byte to the
channel conversion, which clamps everything above 15 to Channel16. -/
theorem c3_pitchbend_channel_from_raw_status :
    decode [224, 1, 2] = .ok (.PitchBendChange .Channel16 1 2) ∧
    Channel.toIndex .Channel16 ≠ 224 - 224 := by decide

/-- C4: decode aborts instead of returning a typed error: on empty
input, on an unrecognized status byte such as 0xF9 (= 249), and on input
shorter than the recognized status requires, the source panics. -/
theorem c4_decode_aborts_on_malformed_input :
    decode [] = .panic .emptyInput ∧
    decode [249] = .panic .invalidMessage ∧
    decode [144, 60] = .panic .noThirdByte := by decide

/-- C9: `decode [0x90, 60, 100]` is NoteOn on Channel1 (index 0) with
data bytes 60 and 100, and encoding that message gives back exactly
`[0x90, 60, 100]`. -/
theorem c9_noteon_example :
    decode [144, 60, 100] = .ok (.NoteOn .Channel1 60 100) ∧
    encode (.NoteOn .Channel1 60 100) = [144, 60, 100] := by decide

/-- C10: on the one-byte input `[0xF0]` the decoder neither returns a
SystemExclusive with empty payload nor a missing-data-byte error: the
slice `value[1..value.len()-1]` has start 1 and end 0, so the operation
aborts at the slice bound. -/
theorem c10_sysex_one_byte_input_aborts :
    decode [240] = .panic .sliceOutOfRange := by decide

/-- C6: encoding `SystemExclusive p` emits 0xF0, then the payload bytes
verbatim (whatever they are, 0xF0/0xF7 bytes included), then 0xF7. -/
theorem c6_sysex_encode_frames_payload (p : List Nat) :
    encode (.SystemExclusive p) = [240] ++ p ++ [247] := rfl

/-- C7: for every index i with 0 ≤ i ≤ 15, converting to a Channel and
back to an index returns i. -/
theorem c7_channel_index_roundtrip (i : Nat) (h : i ≤ 15) :
    (Channel.fromIndex i).toIndex = i := by
  interval_cases i <;> rfl

/-- C7 witness at the concrete index 9. -/
theorem c7_channel_index_roundtrip_witness :
    (Channel.fromIndex 9).toIndex = 9 :=
  c7_channel_index_roundtrip 9 (by decide)

/-- C8: every byte-valued index above 15 is silently clamped to
Channel16 by the wildcard arm of `From<u8> for Channel`. -/
theorem c8_fromIndex_clamps_above_15 (i : Nat) (h : 15 < i) (h2 : i < 256) :
    Channel.fromIndex i = .Channel16 := by
  obtain ⟨k, rfl⟩ : ∃ k, i = k + 16 := ⟨i - 16, by omega⟩
  rfl

/-- C8 witness at the concrete index 200. -/
theorem c8_fromIndex_clamps_above_15_witness :
    Channel.fromIndex 200 = .Channel16 :=
  c8_fromIndex_clamps_above_15 200 (by decide) (by decide)

/-- C5: for any input of length at least 2 starting with 0xF0 — written
as `0xF0 :: mid ++ [last]` — decode returns SystemExclusive whose
payload is exactly the bytes strictly between the first and last byte,
whatever the last byte is. -/
theorem c5_sysex_decode_payload_between (mid : List Nat) (last : Nat) :
    decode (240 :: (mid ++ [last])) = .ok (.SystemExclusive mid) := by
  simp [decode, List.length_append]
